import Mathlib

/-!
Shallow embedding of the anitube-parser scraper (src/scraper.ts, with the
sibling copy in scraper_service.ts) and proofs about its specification.

Modelling conventions:
* The network is an oracle `resp : Nat → NetEvent` giving the outcome of the
  n-th HTTP attempt; `fetchPage` threads an attempt counter through its retry
  recursion and additionally returns the list of back-off waits (in ms) it
  performed, so that retry/wait behaviour is visible in the result.
* HTML parsing (cheerio selectors) is external library code; the values it
  extracts (attributes, text nodes) are taken as inputs of the Lean functions,
  exactly the data the TypeScript reads off the parsed documents.
* JavaScript truthiness of optional strings (`undefined`/empty string are
  falsy) is modelled by `jsTruthy`; `String.prototype.trim`,
  `String.prototype.includes` and `String.prototype.startsWith` are modelled
  over character lists so that everything evaluates inside the kernel.
-/

/-- JS whitespace test used by the models of `trim` and of the regex class
`\s` (space, tab, and line separators; the exotic Unicode spaces JS also
accepts do not occur in the scraped pages). -/
def isJsWs (c : Char) : Bool :=
  c = ' ' || c = '\t' || c = '\n' || c = '\r' || c = '\x0b' || c = '\x0c'

/-- Model of `String.prototype.trim`. -/
def jsTrim (s : String) : String :=
  String.mk (((s.data.dropWhile isJsWs).reverse.dropWhile isJsWs).reverse)

/-- JS truthiness of a possibly-missing string attribute: `undefined` and the
empty string are falsy. -/
def jsTruthy : Option String → Bool
  | some s => !s.isEmpty
  | none => false

/-- Model of `a || b` on possibly-missing strings (first operand wins when
truthy). -/
def jsOr (a b : Option String) : Option String :=
  if jsTruthy a then a else b

/-- Model of `String.prototype.startsWith`. -/
def strStartsWith (s p : String) : Bool :=
  List.isPrefixOf p.data s.data

/-- Auxiliary for `includes`: does `pat` occur as a contiguous run in the
character list? -/
def containsSub (pat : List Char) : List Char → Bool
  | [] => pat.isEmpty
  | c :: cs => List.isPrefixOf pat (c :: cs) || containsSub pat cs

/-- Model of `String.prototype.includes` (substring test). -/
def includes (s pat : String) : Bool :=
  containsSub pat.data s.data

/-- Leading digit run of a string, the capture of `EPISODE_NUM_REGEX`
`^(\d+)` when it matches. -/
def leadingDigits (s : String) : String :=
  String.mk (s.data.takeWhile Char.isDigit)

/-- Value of `Number.parseInt(digits, 10)` on a pure digit string. -/
def natOfDigits (s : String) : Nat :=
  s.data.foldl (fun n c => 10 * n + (c.toNat - '0'.toNat)) 0

/-- Fixed base origin `BASE_URL` of scraper.ts. -/
def BASE_URL : String := "https://anitube.in.ua"

/-- Resolution of a root-relative path against the base origin, from the first
line of `fetchPage`: `url.startsWith("/") ? BASE_URL + url : url`. -/
def resolveUrl (url : String) : String :=
  if strStartsWith url "/" then BASE_URL ++ url else url

/-- Outcome of one attempt of the global `fetch`: an HTTP response with
status, status text and body, or a network-level failure (connection error /
timeout), which in JS makes `fetch` throw. -/
inductive NetEvent where
  | http (status : Nat) (statusText : String) (body : String)
  | netFail (msg : String)
deriving DecidableEq

/-- Errors produced by the fetch layer: the `Error` thrown by `fetchPage` on a
non-ok response (carrying the target URL, status and status text exactly as
interpolated into its message), or a propagated network failure. -/
inductive FetchErr where
  | fetchFailed (url : String) (status : Nat) (statusText : String)
  | netError (msg : String)
deriving DecidableEq

/-- Message of the thrown error, as built by
`throw new Error(`Failed to fetch ...`)` in `fetchPage`; a network
failure keeps its own message. -/
def errMessage : FetchErr → String
  | FetchErr.fetchFailed url status statusText =>
      "Failed to fetch " ++ url ++ ": " ++ Nat.repr status ++ " " ++ statusText
  | FetchErr.netError msg => msg

/-- Test of `response.ok`: status in the 2xx range. -/
def isOkStatus (status : Nat) : Bool :=
  decide (200 ≤ status) && decide (status < 300)

/-- Model of `fetchPage(url, headers, retries)` from scraper.ts.  The
`resp` oracle gives the outcome of each attempt and `attempt` indexes into it;
`headers` are threaded exactly as in the source (they never influence the
oracle).  Returns the final result together with the list of back-off waits in
milliseconds.  Branch structure follows the source: a 429 with retries left
waits 10s and recurses on the resolved URL with one retry fewer; every other
non-2xx status throws, and that throw is caught by the surrounding `catch`,
which (like a network failure) waits 3s and recurses while retries remain and
rethrows once they are exhausted. -/
def fetchPage (resp : Nat → NetEvent) :
    Nat → String → List (String × String) → Nat →
    Except FetchErr String × List Nat
  | attempt, url, headers, 0 =>
    match resp attempt with
    | NetEvent.http status statusText body =>
        if isOkStatus status then (Except.ok body, [])
        else (Except.error (FetchErr.fetchFailed (resolveUrl url) status statusText), [])
    | NetEvent.netFail msg => (Except.error (FetchErr.netError msg), [])
  | attempt, url, headers, Nat.succ r =>
    match resp attempt with
    | NetEvent.http status statusText body =>
        if status = 429 then
          let r1 := fetchPage resp (attempt + 1) (resolveUrl url) headers r
          (r1.1, 10000 :: r1.2)
        else if isOkStatus status then (Except.ok body, [])
        else
          let r1 := fetchPage resp (attempt + 1) (resolveUrl url) headers r
          (r1.1, 3000 :: r1.2)
    | NetEvent.netFail msg =>
        let r1 := fetchPage resp (attempt + 1) (resolveUrl url) headers r
        (r1.1, 3000 :: r1.2)

/-- Playable-source descriptor (`PlayerUrl` of types.ts). -/
structure PlayerUrl where
  id : String
  text : String
  file : String
deriving DecidableEq

/-- Item record (`Anime` of types.ts; the optional numeric `id` plays no role
in the scraper and is omitted). -/
structure Anime where
  title : String
  url : String
  description : String
  imageUrl : Option String
  subbedEpisodes : Nat
  dubbedEpisodes : Nat
  playerUrls : List PlayerUrl
  lastUpdated : String
deriving DecidableEq

/-- Change detector `isAnimeChanged` of scraper.ts, branch for branch. -/
def isAnimeChanged (oldAnime newAnime : Anime) : Bool :=
  if oldAnime.subbedEpisodes ≠ newAnime.subbedEpisodes then true
  else if oldAnime.dubbedEpisodes ≠ newAnime.dubbedEpisodes then true
  else if oldAnime.playerUrls.length ≠ newAnime.playerUrls.length then true
  else false

/-- Data the playlist fragment parser reads off one `li` element:
`data-id` and `data-file` attributes and the element text. -/
structure RawEntry where
  dataId : Option String
  dataFile : Option String
  text : String
deriving DecidableEq

/-- Parsed playlist entry, the return value of `parsePlaylistItem`. -/
structure PlaylistItem where
  id : String
  file : String
  text : String
  epNum : String
deriving DecidableEq

/-- Model of `parsePlaylistItem` of scraper.ts: requires truthy `data-id` and
`data-file`, trims the display text, and derives the episode number as the
capture of `^(\d+)` falling back to the whole text. -/
def parsePlaylistItem (e : RawEntry) : Option PlaylistItem :=
  if jsTruthy e.dataId && jsTruthy e.dataFile then
    match e.dataId, e.dataFile with
    | some id, some file =>
      let text := jsTrim e.text
      let ld := leadingDigits text
      let epNum := if ld.isEmpty then text else ld
      some { id := id, file := file, text := text, epNum := epNum }
    | _, _ => none
  else none

/-- Accumulator threaded through the playlist loop: the two JS `Set`s are
modelled as duplicate-free lists in insertion order, so `.length` is the set
size. -/
structure PlaylistAcc where
  uniqueSubs : List String
  uniqueDubs : List String
  playerUrls : List PlayerUrl
deriving DecidableEq

/-- Model of `Set.prototype.add`: append the element unless present. -/
def setAdd (l : List String) (x : String) : List String :=
  if x ∈ l then l else l ++ [x]

/-- Model of `processPlaylistItem` of scraper.ts: classify by identifier
prefix into the dub or sub set, then always push the source descriptor. -/
def processPlaylistItem (item : PlaylistItem) (acc : PlaylistAcc) : PlaylistAcc :=
  let acc1 :=
    if strStartsWith item.id "0_0_" then
      { acc with uniqueDubs := setAdd acc.uniqueDubs item.epNum }
    else if strStartsWith item.id "0_1_" then
      { acc with uniqueSubs := setAdd acc.uniqueSubs item.epNum }
    else acc
  { acc1 with playerUrls := acc1.playerUrls ++ [⟨item.id, item.text, item.file⟩] }

/-- The `videos.each` loop of `fetchAndParsePlaylist`: run every entry through
`parsePlaylistItem` and, when it parses, through `processPlaylistItem`. -/
def runPlaylistItems : List RawEntry → PlaylistAcc → PlaylistAcc
  | [], acc => acc
  | e :: rest, acc =>
    runPlaylistItems rest
      (match parsePlaylistItem e with
       | some item => processPlaylistItem item acc
       | none => acc)

/-- Result record of `fetchAndParsePlaylist`. -/
structure PlaylistResult where
  subbed : Nat
  dubbed : Nat
  playerUrls : List PlayerUrl
deriving DecidableEq

/-- Model of `fetchAndParsePlaylist` of scraper.ts.  The AJAX round trip is
summarised by its observable outcome: `none` when the fetch threw, the
response was not ok, `success` was false or `response` was empty — all of
which leave the accumulators empty — and `some entries` when a fragment was
parsed into playlist entries. -/
def fetchAndParsePlaylist (playlistResponse : Option (List RawEntry)) : PlaylistResult :=
  match playlistResponse with
  | none => { subbed := 0, dubbed := 0, playerUrls := [] }
  | some entries =>
    let acc := runPlaylistItems entries { uniqueSubs := [], uniqueDubs := [], playerUrls := [] }
    { subbed := acc.uniqueSubs.length
      dubbed := acc.uniqueDubs.length
      playerUrls := acc.playerUrls }

/-- Lower-casing used by the model of the `i` flag of `EPISODE_COUNT_REGEX`:
the Cyrillic letters of the label plus ASCII. -/
def lowerCyr (c : Char) : Char :=
  if c = 'С' then 'с'
  else if c = 'Е' then 'е'
  else if c = 'Р' then 'р'
  else if c = 'І' then 'і'
  else if c = 'Й' then 'й'
  else c.toLower

/-- Case-insensitive match of a lowered pattern against the head of a
character list; returns the remainder on success. -/
def matchCI : List Char → List Char → Option (List Char)
  | [], rest => some rest
  | _ :: _, [] => none
  | p :: ps, c :: cs => if lowerCyr c = p then matchCI ps cs else none

/-- Attempt of `EPISODE_COUNT_REGEX` at one position: the label, then `\s*`,
then the capture `(\d+)` which must be non-empty. -/
def matchEpisodeCountAt (cs : List Char) : Option String :=
  match matchCI ['с', 'е', 'р', 'і', 'й', ':'] cs with
  | none => none
  | some rest =>
    let afterWs := rest.dropWhile isJsWs
    let digits := afterWs.takeWhile Char.isDigit
    if digits.isEmpty then none else some (String.mk digits)

/-- Leftmost match of `EPISODE_COUNT_REGEX`, scanning position by position as
`String.prototype.match` does. -/
def findEpisodeCountAux : List Char → Option String
  | [] => none
  | c :: cs =>
    match matchEpisodeCountAt (c :: cs) with
    | some d => some d
    | none => findEpisodeCountAux cs

/-- Model of `metaText.match(EPISODE_COUNT_REGEX)` followed by
`Number.parseInt(match[1], 10)`. -/
def findEpisodeCount (s : String) : Option Nat :=
  (findEpisodeCountAux s.data).map natOfDigits

/-- Data `parseAnimeDetails` reads off the fetched detail page: the selector
texts and attributes, the two regex captures from the raw HTML, and the
outcome of the secondary playlist fetch that would be performed with the
page's tokens. -/
structure PageData where
  description : String
  imageUrlRaw : Option String
  loginHashMatch : Option String
  newsIdData : Option String
  newsIdMatch : Option String
  metaText : String
  playlistResponse : Option (List RawEntry)
deriving DecidableEq

/-- The token-guarded playlist step of `parseAnimeDetails` (lines 210–229):
`userHash` falls back to the empty string, `newsId` is the data attribute
`||` the regex capture, and the secondary fetch runs only when both are
truthy; otherwise the counts stay zero and the source list empty. -/
def playlistStep (pd : PageData) : PlaylistResult :=
  let userHash := (pd.loginHashMatch).getD ""
  let newsId := jsOr pd.newsIdData pd.newsIdMatch
  if !userHash.isEmpty && jsTruthy newsId then
    fetchAndParsePlaylist pd.playlistResponse
  else { subbed := 0, dubbed := 0, playerUrls := [] }

/-- Model of `parseAnimeDetails(url, title)` of scraper.ts over the page
environment: `none` when the detail-page fetch threw (the top-level `catch`),
otherwise the fully built record with `lastUpdated` set to the current
timestamp `now`.  After the playlist step, the zero-count fallback recovers a
dubbed count from the meta text via `EPISODE_COUNT_REGEX`. -/
def parseAnimeDetails (url title now : String)
    (env : Except FetchErr PageData) : Option Anime :=
  match env with
  | Except.error _ => none
  | Except.ok pd =>
    let description := jsTrim pd.description
    let imageUrl : Option String :=
      match pd.imageUrlRaw with
      | some img => some (if strStartsWith img "/" then BASE_URL ++ img else img)
      | none => none
    let pl := playlistStep pd
    let subbedEpisodes := pl.subbed
    let dubbedEpisodes :=
      if subbedEpisodes = 0 && pl.dubbed = 0 then
        match findEpisodeCount pd.metaText with
        | some n => n
        | none => pl.dubbed
      else pl.dubbed
    some { title := title
           url := url
           description := description
           imageUrl := imageUrl
           subbedEpisodes := subbedEpisodes
           dubbedEpisodes := dubbedEpisodes
           playerUrls := pl.playerUrls
           lastUpdated := now }

/-- Result of `processAnime`: the string literals `"UPDATED"` and
`"UNCHANGED"` of the source. -/
inductive ProcessResult where
  | UPDATED
  | UNCHANGED
deriving DecidableEq

/-- Model of `processAnime` of scraper.ts, with the extraction result and the
store lookup passed in: a `null` extraction falls through to the final
`return "UNCHANGED"`; otherwise the record is diffed with `isAnimeChanged`
(first sight counts as changed). -/
def processAnime (newAnime existingAnime : Option Anime) : ProcessResult :=
  match newAnime with
  | some na =>
    let hasChanged :=
      match existingAnime with
      | some old => isAnimeChanged old na
      | none => true
    if hasChanged then ProcessResult.UPDATED else ProcessResult.UNCHANGED
  | none => ProcessResult.UNCHANGED

/-- Per-item cursor update `processAnimeItem` of scraper.ts. -/
structure ItemUpdate where
  processed : Nat
  consecutiveUnchanged : Nat
  shouldStop : Bool
deriving DecidableEq

/-- Model of `processAnimeItem` of scraper.ts: an update resets the unchanged
counter, anything else increments it and stops once it reaches the limit. -/
def processAnimeItem (result : ProcessResult)
    (processed currentConsecutiveUnchanged limit : Nat) : ItemUpdate :=
  match result with
  | ProcessResult.UPDATED =>
    { processed := processed + 1, consecutiveUnchanged := 0, shouldStop := false }
  | ProcessResult.UNCHANGED =>
    { processed := processed
      consecutiveUnchanged := currentConsecutiveUnchanged + 1
      shouldStop := decide (currentConsecutiveUnchanged + 1 ≥ limit) }

/-- Data the page-scan loop reads off one listing item: link and title from
the listing markup, plus the outcomes of the detail extraction and of the
store lookup for that item. -/
structure ItemEnv where
  link : Option String
  title : String
  parseResult : Option Anime
  existingAnime : Option Anime
deriving DecidableEq

/-- Result record of `scanPage`. -/
structure ScanResult where
  processed : Nat
  consecutiveUnchanged : Nat
  stop : Bool
deriving DecidableEq

/-- The per-item loop of `scanPage` in scraper.ts: items without a truthy
link and non-empty title are passed over; every other item goes through
`processAnime` and `processAnimeItem`, and a `shouldStop` update returns at
once with `stop := true`. -/
def scanLoop : List ItemEnv → Nat → Nat → Nat → ScanResult
  | [], p, c, _ =>
    { processed := p, consecutiveUnchanged := c, stop := false }
  | it :: rest, p, c, limit =>
    if jsTruthy it.link && !it.title.isEmpty then
      let u := processAnimeItem (processAnime it.parseResult it.existingAnime) p c limit
      if u.shouldStop then
        { processed := u.processed, consecutiveUnchanged := u.consecutiveUnchanged, stop := true }
      else scanLoop rest u.processed u.consecutiveUnchanged limit
    else scanLoop rest p c limit

/-- The per-item loop of `scanPage` in the sibling copy of the scraper
(scraper_service.ts, unnamed part_000): there a `null` extraction result
skips the item entirely — neither counter moves and the loop continues —
while a parsed record is diffed inline and the limit is checked after either
branch. -/
def scanLoopService : List ItemEnv → Nat → Nat → Nat → ScanResult
  | [], p, c, _ =>
    { processed := p, consecutiveUnchanged := c, stop := false }
  | it :: rest, p, c, limit =>
    if jsTruthy it.link && !it.title.isEmpty then
      match it.parseResult with
      | none => scanLoopService rest p c limit
      | some na =>
        let hasChanged :=
          match it.existingAnime with
          | some old => isAnimeChanged old na
          | none => true
        let p1 := if hasChanged then p + 1 else p
        let c1 := if hasChanged then 0 else c + 1
        if c1 ≥ limit then
          { processed := p1, consecutiveUnchanged := c1, stop := true }
        else scanLoopService rest p1 c1 limit
    else scanLoopService rest p c limit

/-- Listing URL built by `scanPage`. -/
def pageUrl (page : Nat) : String :=
  BASE_URL ++ "/anime/page/" ++ Nat.repr page ++ "/"

/-- Model of `handleScanError` of scraper.ts: the caught error is formatted
and its message searched for the substring `"404"`; either way zero items
were processed and the incoming unchanged counter is preserved. -/
def handleScanError (e : FetchErr) (page : Nat) (consecutiveUnchanged : Nat) : ScanResult :=
  if includes (errMessage e) "404" then
    { processed := 0, consecutiveUnchanged := consecutiveUnchanged, stop := true }
  else
    { processed := 0, consecutiveUnchanged := consecutiveUnchanged, stop := false }

/-- Model of `scanPage(page, stopOptions)` of scraper.ts: fetch the listing
through `fetchPage` (default 3 retries), let the external HTML parser turn
the body into the per-item environments, stop on an empty listing, otherwise
run the item loop; a fetch error goes to `handleScanError`. -/
def scanPage (page : Nat) (consecutiveUnchanged limit : Nat)
    (net : Nat → NetEvent) (parseListing : String → List ItemEnv) : ScanResult :=
  match (fetchPage net 0 (pageUrl page) [] 3).1 with
  | Except.ok html =>
    let items := parseListing html
    if items.length = 0 then
      { processed := 0, consecutiveUnchanged := consecutiveUnchanged, stop := true }
    else scanLoop items 0 consecutiveUnchanged limit
  | Except.error e => handleScanError e page consecutiveUnchanged

/-- Episode number as the specification words it: the leading digit run of
the entry's display text, or the whole text when there is no leading digit. -/
def specEpNum (displayText : String) : String :=
  if (leadingDigits displayText).isEmpty then displayText else leadingDigits displayText

/-- The playlist entries that parse (truthy identifier and media-file
attribute), in page order. -/
def specParsed (entries : List RawEntry) : List PlaylistItem :=
  entries.filterMap parsePlaylistItem

/-- Source descriptors the specification expects: one per parsed entry,
regardless of classification. -/
def specSources (entries : List RawEntry) : List PlayerUrl :=
  (specParsed entries).map (fun it => ⟨it.id, it.text, it.file⟩)

/-- Episode numbers of the parsed entries whose identifier carries the sub
marker `0_1_`, with duplicates kept (the de-duplication happens in the set). -/
def specSubEpisodeList (entries : List RawEntry) : List String :=
  ((specParsed entries).filter (fun it => strStartsWith it.id "0_1_")).map (fun it => it.epNum)

/-- Episode numbers of the parsed entries whose identifier carries the dub
marker `0_0_`. -/
def specDubEpisodeList (entries : List RawEntry) : List String :=
  ((specParsed entries).filter (fun it => strStartsWith it.id "0_0_")).map (fun it => it.epNum)

lemma strStartsWith_00_01_exclusive (s : String) :
    ¬(strStartsWith s "0_0_" = true ∧ strStartsWith s "0_1_" = true) := by
  rintro ⟨h0, h1⟩
  unfold strStartsWith at h0 h1
  rw [show "0_0_".data = ['0', '_', '0', '_'] from rfl] at h0
  rw [show "0_1_".data = ['0', '_', '1', '_'] from rfl] at h1
  rw [List.isPrefixOf_iff_prefix] at h0 h1
  obtain ⟨t0, ht0⟩ := h0
  obtain ⟨t1, ht1⟩ := h1
  have h := ht0.trans ht1.symm
  simp only [List.cons_append, List.nil_append, List.cons.injEq] at h
  exact absurd h.2.2.1 (by decide)

lemma sw00_not01 {s : String} (h : strStartsWith s "0_0_" = true) :
    strStartsWith s "0_1_" = false := by
  cases h1 : strStartsWith s "0_1_" with
  | false => rfl
  | true => exact absurd ⟨h, h1⟩ (strStartsWith_00_01_exclusive s)

lemma sw01_not00 {s : String} (h : strStartsWith s "0_1_" = true) :
    strStartsWith s "0_0_" = false := by
  cases h0 : strStartsWith s "0_0_" with
  | false => rfl
  | true => exact absurd ⟨h0, h⟩ (strStartsWith_00_01_exclusive s)

lemma runPlaylistItems_eq (entries : List RawEntry) : ∀ acc : PlaylistAcc,
    runPlaylistItems entries acc =
      { uniqueSubs := List.foldl setAdd acc.uniqueSubs (specSubEpisodeList entries)
        uniqueDubs := List.foldl setAdd acc.uniqueDubs (specDubEpisodeList entries)
        playerUrls := acc.playerUrls ++ specSources entries } := by
  induction entries with
  | nil =>
    intro acc
    simp [runPlaylistItems, specSubEpisodeList, specDubEpisodeList, specSources, specParsed]
  | cons e rest ih =>
    intro acc
    cases hpe : parsePlaylistItem e with
    | none =>
      have hrun : runPlaylistItems (e :: rest) acc = runPlaylistItems rest acc := by
        simp [runPlaylistItems, hpe]
      rw [hrun, ih acc]
      simp [specSubEpisodeList, specDubEpisodeList, specSources, specParsed,
        List.filterMap_cons, hpe]
    | some it =>
      have hrun : runPlaylistItems (e :: rest) acc =
          runPlaylistItems rest (processPlaylistItem it acc) := by
        simp [runPlaylistItems, hpe]
      rw [hrun, ih (processPlaylistItem it acc)]
      by_cases h0 : strStartsWith it.id "0_0_" = true
      · have h1 := sw00_not01 h0
        simp [specSubEpisodeList, specDubEpisodeList, specSources, specParsed,
          List.filterMap_cons, hpe, processPlaylistItem, h0, h1, List.filter_cons]
      · by_cases h1 : strStartsWith it.id "0_1_" = true
        · have h0' : strStartsWith it.id "0_0_" = false := by
            cases hb : strStartsWith it.id "0_0_" with
            | false => rfl
            | true => exact absurd hb h0
          simp [specSubEpisodeList, specDubEpisodeList, specSources, specParsed,
            List.filterMap_cons, hpe, processPlaylistItem, h0', h1, List.filter_cons]
        · have h0' : strStartsWith it.id "0_0_" = false := by
            cases hb : strStartsWith it.id "0_0_" with
            | false => rfl
            | true => exact absurd hb h0
          have h1' : strStartsWith it.id "0_1_" = false := by
            cases hb : strStartsWith it.id "0_1_" with
            | false => rfl
            | true => exact absurd hb h1
          simp [specSubEpisodeList, specDubEpisodeList, specSources, specParsed,
            List.filterMap_cons, hpe, processPlaylistItem, h0', h1', List.filter_cons]

lemma setAdd_toFinset (l : List String) (x : String) :
    (setAdd l x).toFinset = insert x l.toFinset := by
  unfold setAdd
  split
  · rename_i h
    rw [Finset.insert_eq_self.mpr (List.mem_toFinset.mpr h)]
  · rw [List.toFinset_append]
    simp [Finset.union_comm, Finset.insert_eq]

lemma setAdd_nodup (l : List String) (x : String) (h : l.Nodup) : (setAdd l x).Nodup := by
  unfold setAdd
  split
  · exact h
  · rename_i hx
    simp [List.nodup_append, h, hx]

lemma foldl_setAdd_nodup : ∀ (xs acc : List String), acc.Nodup → (xs.foldl setAdd acc).Nodup
  | [], _, h => h
  | x :: xs, acc, h => foldl_setAdd_nodup xs (setAdd acc x) (setAdd_nodup acc x h)

lemma foldl_setAdd_toFinset : ∀ (xs acc : List String),
    (xs.foldl setAdd acc).toFinset = acc.toFinset ∪ xs.toFinset
  | [], acc => by simp
  | x :: xs, acc => by
    rw [List.foldl_cons, foldl_setAdd_toFinset xs (setAdd acc x), setAdd_toFinset]
    ext a
    simp


lemma foldl_setAdd_length (xs : List String) :
    (xs.foldl setAdd []).length = xs.toFinset.card := by
  have h1 : (xs.foldl setAdd []).Nodup := foldl_setAdd_nodup xs [] List.nodup_nil
  have h2 := foldl_setAdd_toFinset xs []
  rw [← List.toFinset_card_of_nodup h1, h2]
  simp

lemma length_filter_add_le {α : Type} (p q : α → Bool) (l : List α)
    (h : ∀ x ∈ l, p x = true → q x = false) :
    (l.filter p).length + (l.filter q).length ≤ l.length := by
  induction l with
  | nil => simp
  | cons a l ih =>
    have ih' := ih (fun x hx => h x (by simp [hx]))
    have ha := h a (by simp)
    cases hp : p a with
    | true =>
      have hq := ha hp
      simp [List.filter_cons, hp, hq] <;> omega
    | false =>
      cases hq : q a with
      | true => simp [List.filter_cons, hp, hq] <;> omega
      | false => simp [List.filter_cons, hp, hq] <;> omega

/-- C1: the change detector is a pure boolean function of two records that
returns true exactly when the two records differ in subbed-episode count,
dubbed-episode count, or in the length of the sources list; records agreeing
on those three values yield false no matter how title, description, imageUrl
or lastUpdated differ. -/
theorem isAnimeChanged_spec (a b : Anime) :
    (isAnimeChanged a b = true ↔
      (a.subbedEpisodes ≠ b.subbedEpisodes ∨ a.dubbedEpisodes ≠ b.dubbedEpisodes ∨
       a.playerUrls.length ≠ b.playerUrls.length)) ∧
    (a.subbedEpisodes = b.subbedEpisodes → a.dubbedEpisodes = b.dubbedEpisodes →
      a.playerUrls.length = b.playerUrls.length → isAnimeChanged a b = false) := by
  unfold isAnimeChanged
  by_cases h1 : a.subbedEpisodes = b.subbedEpisodes <;>
    by_cases h2 : a.dubbedEpisodes = b.dubbedEpisodes <;>
      by_cases h3 : a.playerUrls.length = b.playerUrls.length <;>
        simp [h1, h2, h3]

/-- Witness for C1: two records that agree on both episode counts and on the
source-list length but differ in title, description, imageUrl and
lastUpdated are reported unchanged. -/
theorem isAnimeChanged_spec_witness :
    isAnimeChanged
      { title := "Назва А", url := "https://anitube.in.ua/anime/1.html",
        description := "опис 1", imageUrl := some "https://anitube.in.ua/img1.jpg",
        subbedEpisodes := 3, dubbedEpisodes := 4,
        playerUrls := [⟨"0_1_1", "1 серія", "f1"⟩], lastUpdated := "2024-01-01T00:00:00Z" }
      { title := "Назва Б", url := "https://anitube.in.ua/anime/1.html",
        description := "опис 2", imageUrl := none,
        subbedEpisodes := 3, dubbedEpisodes := 4,
        playerUrls := [⟨"0_1_2", "2 серія", "f2"⟩], lastUpdated := "2024-02-02T00:00:00Z" } = false :=
  (isAnimeChanged_spec _ _).2 rfl rfl rfl

/-- C2 (code bug): in scraper.ts a `null` result of the detail extractor is
folded into the `"UNCHANGED"` return value of `processAnime`, so
`processAnimeItem` increments the consecutive-unchanged counter for it (here
from 5 to 6), while the sibling scan loop of scraper_service.ts (unnamed
part_000) — matching the specified behaviour — skips the item and leaves the
counter at 5. -/
theorem null_extraction_counter_divergence :
    scanLoop [{ link := some "/anime/1.html", title := "Назва",
                parseResult := none, existingAnime := none }] 0 5 30 =
      { processed := 0, consecutiveUnchanged := 6, stop := false } ∧
    scanLoopService [{ link := some "/anime/1.html", title := "Назва",
                       parseResult := none, existingAnime := none }] 0 5 30 =
      { processed := 0, consecutiveUnchanged := 5, stop := false } := by
  decide

/-- Network oracle that answers 500 once and then 200, refuting C3. -/
def resp500then200 : Nat → NetEvent := fun n =>
  if n = 0 then NetEvent.http 500 "Internal Server Error" "oops"
  else NetEvent.http 200 "OK" "hello"

/-- Counterexample to C3: with a 500 on the first attempt and 3 retries
remaining, `fetchPage` does not fail immediately — it performs one 3-second
wait, consumes a retry, and returns the body of the following 200 response. -/
theorem http500_not_immediate_counterexample :
    fetchPage resp500then200 0 "https://anitube.in.ua/anime/page/2/" [] 3 =
      (Except.ok "hello", [3000]) ∧
    (fetchPage resp500then200 0 "https://anitube.in.ua/anime/page/2/" [] 3).2.length = 1 :=
  ⟨rfl, rfl⟩

/-- C3 amended: on a non-2xx, non-429 status `fetchPage` builds the error
carrying the status and statusText, but the throw happens inside the `try`,
so the surrounding catch retries it like a network failure: with retries
remaining it waits 3 seconds and recurses with one retry fewer, and only with
no retries left does the error propagate at once. -/
theorem fetchPage_http_error_retries (url : String) (headers : List (String × String))
    (resp : Nat → NetEvent) (attempt status : Nat) (statusText body : String)
    (hresp : resp attempt = NetEvent.http status statusText body)
    (hok : isOkStatus status = false) (h429 : status ≠ 429) :
    fetchPage resp attempt url headers 0 =
      (Except.error (FetchErr.fetchFailed (resolveUrl url) status statusText), []) ∧
    ∀ r : Nat,
      fetchPage resp attempt url headers (r + 1) =
        ((fetchPage resp (attempt + 1) (resolveUrl url) headers r).1,
         3000 :: (fetchPage resp (attempt + 1) (resolveUrl url) headers r).2) := by
  constructor
  · simp [fetchPage, hresp, hok]
  · intro r
    simp [fetchPage, hresp, hok, h429]

/-- Witness for the amended C3: a 500 response with no retries left
propagates as a FetchFailed error with status and statusText, and with
retries left it is retried after a 3000 ms wait. -/
theorem fetchPage_http_error_retries_witness :
    fetchPage (fun _ => NetEvent.http 500 "Internal Server Error" "b") 0
        "https://anitube.in.ua/x" [] 0 =
      (Except.error (FetchErr.fetchFailed "https://anitube.in.ua/x" 500 "Internal Server Error"), []) ∧
    fetchPage (fun _ => NetEvent.http 500 "Internal Server Error" "b") 0
        "https://anitube.in.ua/x" [] 1 =
      ((fetchPage (fun _ => NetEvent.http 500 "Internal Server Error" "b") 1
          "https://anitube.in.ua/x" [] 0).1,
       3000 :: (fetchPage (fun _ => NetEvent.http 500 "Internal Server Error" "b") 1
          "https://anitube.in.ua/x" [] 0).2) := by
  have h := fetchPage_http_error_retries "https://anitube.in.ua/x" []
    (fun _ => NetEvent.http 500 "Internal Server Error" "b") 0 500 "Internal Server Error" "b"
    rfl rfl (by decide)
  exact ⟨h.1, h.2 0⟩

/-- C4: source-level playlist processing equals the specification's
description: the resulting sub and dub counts are the cardinalities of the
de-duplicated sets of episode numbers of the entries marked `0_1_` and
`0_0_` respectively, the sources list gets one descriptor per parsed entry
regardless of marker, and each parsed entry's episode number is the leading
digit run of its display text (the whole text when there is none), with the
two markers mutually exclusive. -/
theorem playlist_parsing_spec :
    (∀ entries : List RawEntry,
      fetchAndParsePlaylist (some entries) =
        { subbed := (specSubEpisodeList entries).toFinset.card
          dubbed := (specDubEpisodeList entries).toFinset.card
          playerUrls := specSources entries }) ∧
    (∀ (e : RawEntry) (it : PlaylistItem), parsePlaylistItem e = some it →
      it.epNum = specEpNum it.text ∧
      (strStartsWith it.id "0_0_" = true → strStartsWith it.id "0_1_" = false)) := by
  constructor
  · intro entries
    have hfe : fetchAndParsePlaylist (some entries) =
        { subbed := (runPlaylistItems entries ⟨[], [], []⟩).uniqueSubs.length
          dubbed := (runPlaylistItems entries ⟨[], [], []⟩).uniqueDubs.length
          playerUrls := (runPlaylistItems entries ⟨[], [], []⟩).playerUrls } := rfl
    rw [hfe, runPlaylistItems_eq entries ⟨[], [], []⟩]
    simp [foldl_setAdd_length]
  · intro e it h
    unfold parsePlaylistItem at h
    split at h
    · rename_i htru
      cases hid : e.dataId with
      | none => rw [hid] at h; simp at h
      | some id =>
        cases hfile : e.dataFile with
        | none => rw [hid, hfile] at h; simp at h
        | some file =>
          rw [hid, hfile] at h
          simp only [Option.some.injEq] at h
          constructor
          · rw [← h]
            simp [specEpNum]
          · intro h0
            exact sw00_not01 h0
    · simp at h

/-- Witness for C4: the duplicate sub entries for episode 1 collapse to a
sub count of 1 while both descriptors survive in the sources list, and the
first entry's episode number is the leading digit run of its display text. -/
theorem playlist_parsing_spec_witness :
    fetchAndParsePlaylist (some
        [{ dataId := some "0_1_1", dataFile := some "f1", text := "1 серія" },
         { dataId := some "0_1_1b", dataFile := some "f2", text := "1 alt" }]) =
      { subbed := 1, dubbed := 0,
        playerUrls := [⟨"0_1_1", "1 серія", "f1"⟩, ⟨"0_1_1b", "1 alt", "f2"⟩] } ∧
    PlaylistItem.epNum ⟨"0_1_1", "f1", "1 серія", "1"⟩ = specEpNum "1 серія" := by
  constructor
  · exact (playlist_parsing_spec.1 _).trans (by decide)
  · exact (playlist_parsing_spec.2
      { dataId := some "0_1_1", dataFile := some "f1", text := "1 серія" } _ (by decide)).1

/-- C5: for a positive limit, once the cursor update for an item (one with a
truthy link and non-empty title) brings the consecutive-unchanged counter up
to the limit, the page loop returns that update immediately with
`stop = true`, independently of every remaining item; below the limit it
simply continues with the updated cursor. -/
theorem scanLoop_stop_at_limit (it : ItemEnv) (rest : List ItemEnv) (p c limit : Nat)
    (hlim : 1 ≤ limit) (hlink : (jsTruthy it.link && !it.title.isEmpty) = true) :
    (limit ≤ (processAnimeItem (processAnime it.parseResult it.existingAnime) p c limit).consecutiveUnchanged →
      scanLoop (it :: rest) p c limit =
        { processed := (processAnimeItem (processAnime it.parseResult it.existingAnime) p c limit).processed
          consecutiveUnchanged :=
            (processAnimeItem (processAnime it.parseResult it.existingAnime) p c limit).consecutiveUnchanged
          stop := true }) ∧
    ((processAnimeItem (processAnime it.parseResult it.existingAnime) p c limit).consecutiveUnchanged < limit →
      scanLoop (it :: rest) p c limit =
        scanLoop rest (processAnimeItem (processAnime it.parseResult it.existingAnime) p c limit).processed
          (processAnimeItem (processAnime it.parseResult it.existingAnime) p c limit).consecutiveUnchanged
          limit) := by
  cases hr : processAnime it.parseResult it.existingAnime with
  | UPDATED =>
    constructor
    · intro h
      simp [processAnimeItem] at h
      omega
    · intro _
      simp [scanLoop, hlink, hr, processAnimeItem]
  | UNCHANGED =>
    constructor
    · intro h
      simp only [processAnimeItem] at h
      have hs : decide (c + 1 ≥ limit) = true := by simpa using h
      simp [scanLoop, hlink, hr, processAnimeItem, hs]
    · intro h
      simp only [processAnimeItem] at h
      have hs : decide (c + 1 ≥ limit) = false := by
        simpa using Nat.not_le.mpr h
      simp [scanLoop, hlink, hr, processAnimeItem, hs]

/-- Sample record for the C5 witness (equal to itself under the change
detector, so its item is reported unchanged). -/
def animeSample : Anime :=
  { title := "Назва", url := "https://anitube.in.ua/anime/1.html", description := "опис",
    imageUrl := none, subbedEpisodes := 3, dubbedEpisodes := 4, playerUrls := [],
    lastUpdated := "2024-01-01T00:00:00Z" }

/-- Witness for C5: with limit 3 and the counter already at 2, the very item
that brings it to 3 stops the page scan at once — the following item, which
would count as changed, is never processed. -/
theorem scanLoop_stop_at_limit_witness :
    scanLoop
      [{ link := some "/anime/1.html", title := "Назва",
         parseResult := some animeSample, existingAnime := some animeSample },
       { link := some "/anime/2.html", title := "Інша",
         parseResult := some animeSample, existingAnime := none }] 0 2 3 =
      { processed := 0, consecutiveUnchanged := 3, stop := true } := by
  have h := (scanLoop_stop_at_limit
    { link := some "/anime/1.html", title := "Назва",
      parseResult := some animeSample, existingAnime := some animeSample }
    [{ link := some "/anime/2.html", title := "Інша",
       parseResult := some animeSample, existingAnime := none }]
    0 2 3 (by decide) (by decide)).1 (by decide)
  exact h.trans (by decide)

/-- Network oracle answering 429 twice and then 200, for the C6 scenario. -/
def resp429twice : Nat → NetEvent := fun n =>
  if n < 2 then NetEvent.http 429 "Too Many Requests" ""
  else NetEvent.http 200 "OK" "page-body"

/-- C6: on a 429 with retries remaining, `fetchPage` performs one fixed
10-second (10000 ms) wait and retries the same resolved URL with the same
headers and one retry fewer; in particular the response sequence
429, 429, 200 under 3 retries yields exactly two 10-second waits and the
body of the 200 response. -/
theorem fetchPage_rate_limited (url : String) (headers : List (String × String))
    (resp : Nat → NetEvent) (attempt : Nat) (statusText body : String) (r : Nat)
    (hresp : resp attempt = NetEvent.http 429 statusText body) :
    fetchPage resp attempt url headers (r + 1) =
      ((fetchPage resp (attempt + 1) (resolveUrl url) headers r).1,
       10000 :: (fetchPage resp (attempt + 1) (resolveUrl url) headers r).2) ∧
    fetchPage resp429twice 0 "https://anitube.in.ua/anime/page/1/" [] 3 =
      (Except.ok "page-body", [10000, 10000]) := by
  constructor
  · simp [fetchPage, hresp]
  · rfl

/-- Witness for C6: instantiation of the 429 step at a concrete oracle,
attempt 0 and retry budget 3. -/
theorem fetchPage_rate_limited_witness :
    fetchPage (fun _ => NetEvent.http 429 "Too Many Requests" "x") 0
        "https://anitube.in.ua/y" [] 3 =
      ((fetchPage (fun _ => NetEvent.http 429 "Too Many Requests" "x") 1
          "https://anitube.in.ua/y" [] 2).1,
       10000 :: (fetchPage (fun _ => NetEvent.http 429 "Too Many Requests" "x") 1
          "https://anitube.in.ua/y" [] 2).2) :=
  (fetchPage_rate_limited "https://anitube.in.ua/y" []
    (fun _ => NetEvent.http 429 "Too Many Requests" "x") 0 "Too Many Requests" "x" 2 rfl).1

/-- Network oracle that always answers 500, for the C7 counterexample. -/
def netAll500 : Nat → NetEvent := fun _ => NetEvent.http 500 "Internal Server Error" "err"

/-- Counterexample to C7: a page-level error that is not an HTTP 404 — every
attempt returns 500 — still produces stop = true on page number 404, because
`handleScanError` merely searches the error message, which embeds the page
URL `/anime/page/404/`, for the substring "404". -/
theorem scanPage_500_on_page404_counterexample :
    scanPage 404 7 30 netAll500 (fun _ => []) =
      { processed := 0, consecutiveUnchanged := 7, stop := true } := by
  decide

/-- C7 amended: whenever the whole-page fetch of `scanPage` fails, the result
has zero items processed and the incoming consecutive-unchanged counter, and
`stop` is true exactly when the formatted error message contains the
substring "404" — which covers genuine HTTP 404 responses but also any other
error whose message happens to contain "404", such as a non-404 failure on
page number 404. -/
theorem scanPage_error_branch (page c limit : Nat) (net : Nat → NetEvent)
    (parseListing : String → List ItemEnv) (e : FetchErr)
    (h : (fetchPage net 0 (pageUrl page) [] 3).1 = Except.error e) :
    scanPage page c limit net parseListing =
      { processed := 0, consecutiveUnchanged := c, stop := includes (errMessage e) "404" } := by
  unfold scanPage
  rw [h]
  unfold handleScanError
  cases hb : includes (errMessage e) "404" <;> simp [hb]

/-- Witness for the amended C7: a genuine 404 (propagated by `fetchPage`
after its retries) stops the scan with the cursor preserved. -/
theorem scanPage_error_branch_witness :
    scanPage 1 5 30 (fun _ => NetEvent.http 404 "Not Found" "nope") (fun _ => []) =
      { processed := 0, consecutiveUnchanged := 5, stop := true } := by
  have h := scanPage_error_branch 1 5 30 (fun _ => NetEvent.http 404 "Not Found" "nope")
    (fun _ => [])
    (FetchErr.fetchFailed "https://anitube.in.ua/anime/page/1/" 404 "Not Found") rfl
  exact h.trans (by decide)

/-- C8: the detail extractor never propagates a failure: when the detail-page
fetch raised an error the result is `null`, and otherwise it is a record
built from the page data whose `lastUpdated` is the fresh timestamp and whose
identity fields are the given url and title. -/
theorem parseAnimeDetails_total (url title now : String) (env : Except FetchErr PageData) :
    (∀ e : FetchErr, env = Except.error e → parseAnimeDetails url title now env = none) ∧
    (∀ pd : PageData, env = Except.ok pd →
      ∃ a : Anime, parseAnimeDetails url title now env = some a ∧
        a.lastUpdated = now ∧ a.title = title ∧ a.url = url) := by
  constructor
  · intro e he
    subst he
    rfl
  · intro pd hpd
    subst hpd
    exact ⟨_, rfl, rfl, rfl, rfl⟩

/-- Page data for the C8 and C9 witnesses: no tokens (so the playlist step is
skipped) and a meta text carrying the localized episode-count label. -/
def pdSample : PageData :=
  { description := "  опис  ", imageUrlRaw := some "/uploads/img.jpg",
    loginHashMatch := none, newsIdData := none, newsIdMatch := none,
    metaText := "Телесеріал. Серій: 12 (~24 хв.)", playlistResponse := none }

/-- Witness for C8: a network failure gives `null`; a fetched page gives a
record stamped with the fresh timestamp. -/
theorem parseAnimeDetails_total_witness :
    parseAnimeDetails "https://anitube.in.ua/anime/1.html" "Назва" "2024-03-03T00:00:00Z"
      (Except.error (FetchErr.netError "connect timeout")) = none ∧
    ∃ a : Anime,
      parseAnimeDetails "https://anitube.in.ua/anime/1.html" "Назва" "2024-03-03T00:00:00Z"
        (Except.ok pdSample) = some a ∧
      a.lastUpdated = "2024-03-03T00:00:00Z" ∧ a.title = "Назва" ∧
      a.url = "https://anitube.in.ua/anime/1.html" := by
  constructor
  · exact (parseAnimeDetails_total _ _ _ _).1 _ rfl
  · exact (parseAnimeDetails_total _ _ _ _).2 pdSample rfl

/-- C9: when the playlist step leaves both episode counts at zero — whether
it was skipped for missing tokens, failed, or parsed nothing — and the meta
text matches the localized episode-count pattern with value n, the extractor
returns a record whose dubbed count is n while the subbed count stays zero. -/
theorem fallback_assigns_dub_only (url title now : String) (pd : PageData) (n : Nat)
    (hsub : (playlistStep pd).subbed = 0) (hdub : (playlistStep pd).dubbed = 0)
    (hmeta : findEpisodeCount pd.metaText = some n) :
    ∃ a : Anime, parseAnimeDetails url title now (Except.ok pd) = some a ∧
      a.dubbedEpisodes = n ∧ a.subbedEpisodes = 0 := by
  refine ⟨_, rfl, ?_, ?_⟩
  · simp [hsub, hdub, hmeta]
  · simp [hsub]

/-- Witness for C9: with no tokens on the page and meta text containing
"Серій: 12", the record comes back with dubbed count 12 and subbed count 0. -/
theorem fallback_assigns_dub_only_witness :
    ∃ a : Anime,
      parseAnimeDetails "https://anitube.in.ua/anime/1.html" "Назва" "2024-01-01T00:00:00Z"
        (Except.ok pdSample) = some a ∧
      a.dubbedEpisodes = 12 ∧ a.subbedEpisodes = 0 :=
  fallback_assigns_dub_only _ _ _ pdSample 12 (by decide) (by decide) (by decide)

/-- C10: for every playlist outcome the combined de-duplicated episode
counts never exceed the number of source descriptors: each counted entry also
appends exactly one descriptor, the two marker classes are disjoint, and the
sets only shrink under de-duplication. -/
theorem playlist_counts_le_sources (playlistResponse : Option (List RawEntry)) :
    (fetchAndParsePlaylist playlistResponse).subbed +
        (fetchAndParsePlaylist playlistResponse).dubbed ≤
      (fetchAndParsePlaylist playlistResponse).playerUrls.length := by
  cases playlistResponse with
  | none => simp [fetchAndParsePlaylist]
  | some entries =>
    have hfe : fetchAndParsePlaylist (some entries) =
        { subbed := (runPlaylistItems entries ⟨[], [], []⟩).uniqueSubs.length
          dubbed := (runPlaylistItems entries ⟨[], [], []⟩).uniqueDubs.length
          playerUrls := (runPlaylistItems entries ⟨[], [], []⟩).playerUrls } := rfl
    rw [hfe, runPlaylistItems_eq entries ⟨[], [], []⟩]
    simp only [foldl_setAdd_length, List.nil_append]
    have hsub : (specSubEpisodeList entries).toFinset.card ≤ (specSubEpisodeList entries).length :=
      List.toFinset_card_le _
    have hdub : (specDubEpisodeList entries).toFinset.card ≤ (specDubEpisodeList entries).length :=
      List.toFinset_card_le _
    have hslen : (specSubEpisodeList entries).length =
        ((specParsed entries).filter (fun it => strStartsWith it.id "0_1_")).length := by
      simp [specSubEpisodeList]
    have hdlen : (specDubEpisodeList entries).length =
        ((specParsed entries).filter (fun it => strStartsWith it.id "0_0_")).length := by
      simp [specDubEpisodeList]
    have hdisj := length_filter_add_le (fun it => strStartsWith it.id "0_1_")
      (fun it => strStartsWith it.id "0_0_") (specParsed entries)
      (fun x _ hx => sw01_not00 hx)
    have hsrc : (specSources entries).length = (specParsed entries).length := by
      simp [specSources]
    rw [hsrc]
    omega
